import Mathlib

/-!
Shallow embedding of the `dxvk-remix` sources under verification:

* `src/dxvk/shaders/rtx/pass/rtxdi/restir_gi_temporal_reuse.comp.slang` —
  the ReSTIR GI temporal-reuse compute shader (`main`).  Shader floats are
  modelled as exact reals; helper routines whose bodies live in included
  headers outside the illustrated source (visibility tracing, the GBuffer
  accessors, the packed-bitfield accessors, the temporal-resampling core,
  random sampling, NDC-to-UV mapping, Schlick Fresnel) are modelled either as
  oracle fields of an environment record or, when the spec pins their
  behaviour down, as definitions marked "Modelled from the spec".

* `src/dxvk/dxvk_framebuffer.cpp` — `DxvkRenderTargets` size/attachment
  queries, embedded as pure functions over an `Option`-valued target table.
-/

/-! ## Small vector / matrix model (shader `vec2` / `vec3` / `mat4` over ℝ) -/

/-- Shader `vec3`, with exact real components. -/
structure Vec3 where
  x : ℝ
  y : ℝ
  z : ℝ

instance : Add Vec3 := ⟨fun a b => ⟨a.x + b.x, a.y + b.y, a.z + b.z⟩⟩

instance : Sub Vec3 := ⟨fun a b => ⟨a.x - b.x, a.y - b.y, a.z - b.z⟩⟩

instance : Neg Vec3 := ⟨fun a => ⟨-a.x, -a.y, -a.z⟩⟩

instance : SMul ℝ Vec3 := ⟨fun c a => ⟨c * a.x, c * a.y, c * a.z⟩⟩

/-- The zero vector `vec3(0)`. -/
def vec3zero : Vec3 := ⟨0, 0, 0⟩

/-- Shader `dot` on `vec3`. -/
def dot3 (a b : Vec3) : ℝ := a.x * b.x + a.y * b.y + a.z * b.z

/-- Shader `length` on `vec3`. -/
noncomputable def vlength (a : Vec3) : ℝ := Real.sqrt (dot3 a a)

/-- Shader `normalize` on `vec3` (`v / length(v)`). -/
noncomputable def vnormalize (a : Vec3) : Vec3 := (1 / vlength a) • a

/-- Shader `reflect(i, n) = i - 2 * dot(i, n) * n`. -/
def reflect3 (i n : Vec3) : Vec3 := i - (2 * dot3 i n) • n

/-- Shader `vec2`, with exact real components. -/
structure Vec2 where
  x : ℝ
  y : ℝ

instance : Sub Vec2 := ⟨fun a b => ⟨a.x - b.x, a.y - b.y⟩⟩

/-- Shader `length` on `vec2`. -/
noncomputable def vlength2 (a : Vec2) : ℝ := Real.sqrt (a.x * a.x + a.y * a.y)

/-- Shader `lerp` on scalars: `a + (b - a) * t`. -/
def lerp (a b t : ℝ) : ℝ := a + (b - a) * t

/-- Shader `lerp` on `vec2`, component-wise. -/
def lerp2 (a b : Vec2) (t : ℝ) : Vec2 := ⟨lerp a.x b.x t, lerp a.y b.y t⟩

/-- Shader `saturate`: clamp to `[0, 1]`. -/
def saturate (v : ℝ) : ℝ := min (max v 0) 1

/-- A row-major 4×4 shader matrix. -/
structure Mat4 where
  m00 : ℝ
  m01 : ℝ
  m02 : ℝ
  m03 : ℝ
  m10 : ℝ
  m11 : ℝ
  m12 : ℝ
  m13 : ℝ
  m20 : ℝ
  m21 : ℝ
  m22 : ℝ
  m23 : ℝ
  m30 : ℝ
  m31 : ℝ
  m32 : ℝ
  m33 : ℝ

/-- `(mul(M, vec4(p, 1))).xyz` — affine point transform, no perspective divide
(shader line `initialSample.position = (mul(teleportMatrix, vec4(..., 1.0f))).xyz`). -/
def mat4TransformPoint (m : Mat4) (p : Vec3) : Vec3 :=
  ⟨m.m00 * p.x + m.m01 * p.y + m.m02 * p.z + m.m03,
   m.m10 * p.x + m.m11 * p.y + m.m12 * p.z + m.m13,
   m.m20 * p.x + m.m21 * p.y + m.m22 * p.z + m.m23⟩

/-- `mul(mat3(M), n)` — rotational part only, for normals. -/
def mat3TransformDirection (m : Mat4) (n : Vec3) : Vec3 :=
  ⟨m.m00 * n.x + m.m01 * n.y + m.m02 * n.z,
   m.m10 * n.x + m.m11 * n.y + m.m12 * n.z,
   m.m20 * n.x + m.m21 * n.y + m.m22 * n.z⟩

/-- `mul(M, vec4(p, 1))` followed by the perspective divide `ndc.xyz /= ndc.w`,
keeping the `xy` components (as in the reprojection code paths). -/
noncomputable def mat4ProjectXY (m : Mat4) (p : Vec3) : Vec2 :=
  let w := m.m30 * p.x + m.m31 * p.y + m.m32 * p.z + m.m33
  ⟨(m.m00 * p.x + m.m01 * p.y + m.m02 * p.z + m.m03) / w,
   (m.m10 * p.x + m.m11 * p.y + m.m12 * p.z + m.m13) / w⟩

/-! ## Framebuffer model (`dxvk_framebuffer.cpp`) -/

namespace dxvk

/-- The data `DxvkRenderTargets::renderTargetSize` reads from a `DxvkImageView`:
its mip-level-0 extent and its layer count. -/
structure DxvkImageView where
  mipLevel0Width : ℕ
  mipLevel0Height : ℕ
  numLayers : ℕ
deriving DecidableEq

/-- `DxvkFramebufferSize` — width, height, layers. -/
structure DxvkFramebufferSize where
  width : ℕ
  height : ℕ
  layers : ℕ
deriving DecidableEq

/-- `DxvkRenderTargets`: one optional depth target plus an indexed array of
optional color targets (`m_colorTargets`, iterated in index order; the fixed
C++ array bound `MaxNumRenderTargets` is the list length). -/
structure DxvkRenderTargets where
  depthTarget : Option DxvkImageView
  colorTargets : List (Option DxvkImageView)

/-- `DxvkRenderTargets::renderTargetSize`. -/
def renderTargetSize (v : DxvkImageView) : DxvkFramebufferSize :=
  ⟨v.mipLevel0Width, v.mipLevel0Height, v.numLayers⟩

/-- `DxvkRenderTargets::getImageSize`: depth target size if bound, else the
first bound color target's size, else `{ 0, 0, 0 }`. -/
def getImageSize (rt : DxvkRenderTargets) : DxvkFramebufferSize :=
  match rt.depthTarget with
  | some v => renderTargetSize v
  | none =>
    match rt.colorTargets.findSome? id with
    | some v => renderTargetSize v
    | none => ⟨0, 0, 0⟩

/-- `DxvkRenderTargets::hasAttachments`: true iff the depth view or any color
view is non-null (the C++ loop with early exit computes exactly this). -/
def hasAttachments (rt : DxvkRenderTargets) : Bool :=
  rt.depthTarget.isSome || rt.colorTargets.any Option.isSome

/-- The attachment whose size `getImageSize` reports, when one exists: the
depth view if bound, otherwise the first bound color view. -/
def firstAttachment (rt : DxvkRenderTargets) : Option DxvkImageView :=
  match rt.depthTarget with
  | some v => some v
  | none => rt.colorTargets.findSome? id

end dxvk

/-! ## ReSTIR GI shader data model -/

/-- `ReSTIRGI_Reservoir`.  The packed `flagsAndVirtualFraction` bitfield is
modelled as a separate flag-bit word plus the real-valued virtual fraction,
since the packing accessors live in a header outside the illustrated source;
`M` is the integer history weight. -/
structure ReSTIRGI_Reservoir where
  position : Vec3
  normal : Vec3
  radiance : Vec3
  M : ℕ
  avgWeight : ℝ
  flags : ℕ
  virtualFraction : ℝ
  portalID : ℕ

/-- `setPortalID`. -/
def ReSTIRGI_Reservoir.setPortalID (r : ReSTIRGI_Reservoir) (id : ℕ) : ReSTIRGI_Reservoir :=
  { r with portalID := id }

/-- `setVirtualFraction`. -/
def ReSTIRGI_Reservoir.setVirtualFraction (r : ReSTIRGI_Reservoir) (f : ℝ) : ReSTIRGI_Reservoir :=
  { r with virtualFraction := f }

/-- `setFlag(v)`: OR the given bits into the flag word. -/
def ReSTIRGI_Reservoir.setFlag (r : ReSTIRGI_Reservoir) (v : ℕ) : ReSTIRGI_Reservoir :=
  { r with flags := r.flags ||| v }

/-- `clearFlag(v)`: clear the given bits of the flag word (`flags &= ~v`). -/
def ReSTIRGI_Reservoir.clearFlag (r : ReSTIRGI_Reservoir) (v : ℕ) : ReSTIRGI_Reservoir :=
  { r with flags := Nat.ldiff r.flags v }

/-- Flag-bit test (`(flags & v) != 0`). -/
def ReSTIRGI_Reservoir.hasFlag (r : ReSTIRGI_Reservoir) (v : ℕ) : Bool :=
  decide (r.flags &&& v ≠ 0)

/-- Modelled from the spec: the occluded-sample flag bit of the reservoir's
packed flag word (`RESTIR_GI_FLAG_OCCLUDED_SAMPLE`); its exact bit position
lives in a header outside the illustrated source, so bit 0 is used. -/
def RESTIR_GI_FLAG_OCCLUDED_SAMPLE : ℕ := 1

/-- Modelled from the spec: the sentinel portal id meaning "the indirect ray
crossed no portal" (`RESTIR_GI_INVALID_INDIRECT_LIGHT_PORTAL_ID`, an external
header constant). -/
def RESTIR_GI_INVALID_INDIRECT_LIGHT_PORTAL_ID : ℕ := 255

/-- Modelled from the spec: the near-mirror ("delta") roughness threshold
below which a surface counts as a perfect mirror
(`RAB_RESTIR_GI_DELTA_ROUGHNESS`, an external header constant). -/
def RAB_RESTIR_GI_DELTA_ROUGHNESS : ℝ := 0.01

/-- `RAB_Surface` — the per-pixel GBuffer surface fields this pass reads.
Field names flatten the nested accessors of the source
(`minimalSurfaceInteraction.position` → `position`,
`minimalRayInteraction.viewDirection` → `viewDirection`, …). -/
structure RAB_Surface where
  isValid : Bool
  position : Vec3
  triangleNormal : Vec3
  shadingNormal : Vec3
  viewDirection : Vec3
  isotropicRoughness : ℝ
  albedo : Vec3
  baseReflectivity : Vec3
  virtualWorldPosition : Vec3
  objectMask : ℕ
  portalSpace : ℕ
  isViewModel : Bool

/-- A portal-table entry (`RayPortalHitInfo`): its active flag and its
portal-to-opposing-portal transform (stored packed in the source; the packing
is external, so the matrix is held directly). -/
structure RayPortalHitInfo where
  isActive : Bool
  encodedPortalToOpposingPortalDirection : Mat4

/-- Result of `traceVisibilityRay` as consumed here: whether an opaque hit was
found and at which distance. -/
structure VisibilityResult where
  hasOpaqueHit : Bool
  hitDistance : ℝ

/-- The bias-correction mode selector (`cb.reSTIRGIBiasCorrectionMode`). -/
inductive BiasCorrectionMode where
  | off
  | basic
  | pairwise
  | pairwiseRayTraced
deriving DecidableEq

/-- Integer pixel coordinate (`int2 thread_id`). -/
abbrev Int2 := ℤ × ℤ

/-- The camera fields this pass reads.  `ndcToScreenUV` is the external helper
`cameraNDCToScreenUV` (modelled from the spec as an oracle: its body is in a
camera header outside the illustrated source). -/
structure Camera where
  resolution : Int2
  prevWorldToProjection : Mat4
  prevWorldPosition : Vec3
  ndcToScreenUV : Vec2 → Vec2

/-- The per-frame constant buffer `cb`, restricted to the fields this shader
reads.  Integer enable flags (`> 0` tests in the source) are modelled as
`Bool`. -/
structure ConstantBuffer where
  camera : Camera
  frameIdx : ℕ
  fireflyFilteringLuminanceThreshold : ℝ
  rayPortalHitInfos : ℕ → RayPortalHitInfo
  enableReSTIRGIVirtualSample : Bool
  enableReSTIRGIReflectionReprojection : Bool
  enableReSTIRGIDiscardEnlargedPixels : Bool
  enableReSTIRGITemporalReuse : Bool
  enableReSTIRGITemporalJacobian : Bool
  enableReSTIRGITemporalBiasCorrection : Bool
  enableReSTIRGIPermutationSampling : Bool
  restirGIReflectionMinParallax : ℝ
  temporalHistoryLength : ℕ
  permutationSamplingSize : ℕ
  teleportationPortalIndex : ℤ
  uniformRandomNumber : ℕ
  reSTIRGIBiasCorrectionMode : BiasCorrectionMode
  numActiveRayPortals : ℕ

/-- The dispatch environment: the constant buffer plus the per-pixel input
textures and the external collaborators (oracles) of the pass.  A shader
float that may be NaN/Inf is modelled as `Option ℝ` (`none` = invalid). -/
structure Env where
  cb : ConstantBuffer
  /-- `RAB_GetGBufferSurface(thread_id, false)` (validity included). -/
  surfaceAt : Int2 → RAB_Surface
  /-- `geometryFlags.primarySelectedIntegrationSurface` for the pixel. -/
  primarySelectedIntegrationSurfaceAt : Int2 → Bool
  /-- `RestirGIRadiance[thread_id]`: rgb components (possibly NaN/Inf) and w. -/
  restirGIRadianceAt : Int2 → (Option ℝ × Option ℝ × Option ℝ) × ℝ
  /-- `ReSTIRGI_LoadHitGeometry`: hit position, hit normal, portal id. -/
  hitGeometryAt : Int2 → Vec3 × Vec3 × ℕ
  /-- `PrimaryVirtualMotionVector[thread_id].xyz`. -/
  primaryVirtualMotionVectorAt : Int2 → Vec3
  /-- `getOpposingRayPortalIndex` (external header helper). -/
  getOpposingRayPortalIndex : ℕ → ℕ
  /-- `evalOpaqueSchlickFresnel(baseReflectivity, normalDotOutputDirection)`
  (external material helper, oracle). -/
  evalOpaqueSchlickFresnel : Vec3 → ℝ → Vec3
  /-- `traceVisibilityRay` restricted to the arguments that vary here: ray
  origin surface position and destination (oracle for the ray tracer). -/
  traceVisibilityRay : Vec3 → Vec3 → VisibilityResult
  /-- `RAB_TraceGISampleVisibility(surface, surface, reservoir, ...)` (oracle). -/
  traceGISampleVisibility : RAB_Surface → ReSTIRGI_Reservoir → Bool
  /-- The value of the one explicit `RAB_GetNextRandom(rng)` draw of `main`
  (the random stream is deterministic per pixel and frame). -/
  nextRandom : ℝ
  /-- Previous-frame reservoir page, indexed by pixel; `none` = invalid slot. -/
  prevReservoirAt : Int2 → Option ReSTIRGI_Reservoir
  /-- Similarity-gate oracle of the resampling core (current pixel, previous
  pixel): the detailed depth/normal comparison lives outside the source. -/
  gbufferSimilarAt : Int2 → Int2 → Bool
  /-- Permutation-sampling pixel perturbation (spec §4.3 step 3, oracle). -/
  permutationOffsetAt : Int2 → Int2
  /-- The random draw consumed by the weighted merge (oracle). -/
  mergeRandom : ℝ
  /-- `ReSTIRGI_GetTemporalInputPage()`. -/
  temporalInputPage : ℕ

/-! ## Candidate Builder (shader lines 63–117) -/

/-- Modelled from the spec: BT.709 relative luminance (`calcBt709Luminance`,
an external utility). -/
def calcBt709Luminance (v : Vec3) : ℝ := 0.2126 * v.x + 0.7152 * v.y + 0.0722 * v.z

/-- Modelled from the spec: `sanitize(v, vec3(0))` — §7 "Invalid/NaN/negative
radiance → sanitized to zero before use": each NaN/Inf (`none`) or negative
component is replaced by the fallback component. -/
noncomputable def sanitize (v : Option ℝ × Option ℝ × Option ℝ) (fallback : Vec3) : Vec3 :=
  let comp : Option ℝ → ℝ → ℝ := fun c fb =>
    match c with
    | none => fb
    | some c => if c < 0 then fb else c
  ⟨comp v.1 fallback.x, comp v.2.1 fallback.y, comp v.2.2 fallback.z⟩

/-- The firefly-filtering factor `30` (shader line 82). -/
def fireflyFilteringFactor : ℝ := 30

/-- Modelled from the spec: `fireflyFiltering(radiance, threshold)` — §4.1
"clamp luminance above `luminanceThreshold × 30` down toward the threshold
while preserving hue/direction": radiance whose luminance exceeds the
threshold is rescaled so its luminance equals the threshold. -/
noncomputable def fireflyFiltering (v : Vec3) (threshold : ℝ) : Vec3 :=
  let lum := calcBt709Luminance v
  if threshold < lum then (threshold / lum) • v else v

/-- Shader lines 73–83: load the radiance and the indirect path length when
the pixel holds the primary selected integration surface, then apply firefly
filtering at `cb.fireflyFilteringLuminanceThreshold * 30`. -/
noncomputable def candidateRadianceAndPathLength (env : Env) (tid : Int2) : Vec3 × ℝ :=
  let loaded :=
    if env.primarySelectedIntegrationSurfaceAt tid then
      let radianceAndDistance := env.restirGIRadianceAt tid
      (sanitize radianceAndDistance.1 vec3zero, radianceAndDistance.2)
    else (vec3zero, 0)
  (fireflyFiltering loaded.1
      (env.cb.fireflyFilteringLuminanceThreshold * fireflyFilteringFactor),
   loaded.2)

/-- Shader lines 85–99: load the hit geometry and, when the indirect ray
crossed a portal whose opposing portal entry is active, transform position by
the teleport matrix and normal by its rotational part. -/
def candidateHitAfterPortal (env : Env) (tid : Int2) : Vec3 × Vec3 × ℕ :=
  let hit := env.hitGeometryAt tid
  let portalID := hit.2.2
  if portalID ≠ RESTIR_GI_INVALID_INDIRECT_LIGHT_PORTAL_ID then
    let rayPortalHitInfo := env.cb.rayPortalHitInfos (env.getOpposingRayPortalIndex portalID)
    if rayPortalHitInfo.isActive then
      let teleportMatrix := rayPortalHitInfo.encodedPortalToOpposingPortalDirection
      (mat4TransformPoint teleportMatrix hit.1,
       mat3TransformDirection teleportMatrix hit.2.1, portalID)
    else (hit.1, hit.2.1, portalID)
  else (hit.1, hit.2.1, portalID)

/-- Shader lines 63–114: the complete initial (candidate) reservoir —
`M = 1`, `avgWeight = 1`, filtered radiance, portal-resolved hit geometry,
and the virtual-sample extrapolation for rough-enough surfaces. -/
noncomputable def buildInitialSample (env : Env) (tid : Int2) : ReSTIRGI_Reservoir :=
  let surface := env.surfaceAt tid
  let rp := candidateRadianceAndPathLength env tid
  let indirectPathLength := rp.2
  let hit := candidateHitAfterPortal env tid
  let base : ReSTIRGI_Reservoir :=
    { position := hit.1, normal := hit.2.1, radiance := rp.1,
      M := 1, avgWeight := 1, flags := 0, virtualFraction := 0, portalID := hit.2.2 }
  if env.cb.enableReSTIRGIVirtualSample = true ∧
     RAB_RESTIR_GI_DELTA_ROUGHNESS < surface.isotropicRoughness then
    let direction := base.position - surface.position
    if (¬ direction.x = 0 ∨ ¬ direction.y = 0 ∨ ¬ direction.z = 0) ∧
       vlength direction * 1.01 < indirectPathLength then
      { base with
        virtualFraction := (indirectPathLength - vlength direction) * 1.2,
        position := surface.position + indirectPathLength • vnormalize direction,
        normal := -(vnormalize direction) }
    else base
  else base

/-! ## Reprojector (shader lines 119–194) -/

/-- The mutable reprojection state `main` threads from line 124 to the
resampling-parameter block: the previous-pixel coordinate, the backup
coordinate, the similarity thresholds, the enlarged-pixel-discard flag and
the reflection selection weight. -/
structure ReprojectionState where
  prevPixelCenter : Vec2
  prevBackupPixelCenter : Vec2
  depthThreshold : Vec2
  normalThreshold : ℝ
  discardEnlargedPixels : Bool
  reflectionReprojectionWeight : ℝ
  expectedPrevHitDistance : ℝ

/-- The depth-similarity threshold of line 132 as a function of the clamped
absolute view-direction · triangle-normal product: `0.01 / max(c, 0.01)`. -/
noncomputable def depthThresholdOf (c : ℝ) : ℝ := 0.01 / max c 0.01

/-- The normal-similarity threshold of line 133 as a function of isotropic
roughness: `lerp(0.995, 0.5, roughness)`. -/
def normalThresholdOf (roughness : ℝ) : ℝ := lerp 0.995 0.5 roughness

/-- Lines 127–129 and 171–173: project a world position by the previous
frame's world-to-projection matrix, divide by w, map NDC to screen UV and
scale by the resolution.  The same chain serves the naive and the
reflection-based reprojection. -/
noncomputable def prevFramePixelCenter (camera : Camera) (worldPos : Vec3) : Vec2 :=
  let prevNDC := mat4ProjectXY camera.prevWorldToProjection worldPos
  let uv := camera.ndcToScreenUV prevNDC
  ⟨uv.x * ((camera.resolution.1 : ℝ)), uv.y * ((camera.resolution.2 : ℝ))⟩

/-- Lines 124–133: the naive motion-vector reprojection — previous virtual
world position projected into the previous frame, the expected previous hit
distance, and the depth/normal similarity thresholds; the backup coordinate
starts at the sentinel `-1` (line 149) and the reflection weight at `0`. -/
noncomputable def naiveReprojection (env : Env) (tid : Int2) : ReprojectionState :=
  let camera := env.cb.camera
  let surface := env.surfaceAt tid
  let virtualMotionVector := env.primaryVirtualMotionVectorAt tid
  let prevVirtualWorldPosition := surface.virtualWorldPosition + virtualMotionVector
  let prevPixelCenter := prevFramePixelCenter camera prevVirtualWorldPosition
  let expectedPrevHitDistance := vlength (prevVirtualWorldPosition - camera.prevWorldPosition)
  let viewDirectionDotTriangleNormal :=
    |dot3 surface.viewDirection surface.triangleNormal|
  { prevPixelCenter := prevPixelCenter
    prevBackupPixelCenter := ⟨-1, -1⟩
    depthThreshold := ⟨depthThresholdOf viewDirectionDotTriangleNormal,
                       depthThresholdOf viewDirectionDotTriangleNormal⟩
    normalThreshold := normalThresholdOf surface.isotropicRoughness
    discardEnlargedPixels := env.cb.enableReSTIRGIDiscardEnlargedPixels
    reflectionReprojectionWeight := 0
    expectedPrevHitDistance := expectedPrevHitDistance }

/-- Lines 139–145 without the enable guard: the specular selection weight —
Fresnel luminance over Fresnel-plus-albedo luminance, times one minus the
isotropic roughness. -/
noncomputable def specularReflectionWeight (env : Env) (tid : Int2) : ℝ :=
  let surface := env.surfaceAt tid
  let roughWeight := 1 - surface.isotropicRoughness
  let normalDotOutputDirection := dot3 surface.shadingNormal surface.viewDirection
  let albedoLuminance := calcBt709Luminance surface.albedo
  let fresnel := env.evalOpaqueSchlickFresnel surface.baseReflectivity normalDotOutputDirection
  let fresnelLuminance := calcBt709Luminance fresnel
  let specularWeight := fresnelLuminance / (fresnelLuminance + albedoLuminance)
  specularWeight * roughWeight

/-- Lines 135–146: `reflectionWeight` is the specular selection weight when
reflection reprojection is enabled, and `0` otherwise. -/
noncomputable def reflectionWeight (env : Env) (tid : Int2) : ℝ :=
  if env.cb.enableReSTIRGIReflectionReprojection then specularReflectionWeight env tid
  else 0

/-- Lines 155–173: trace the reflection ray (hit distance `1e5` on a miss)
and reproject the virtually-reflected hit point
`worldPos + viewVector * reflectionHitT` into the previous frame. -/
noncomputable def prevReflectionCenterOf (env : Env) (tid : Int2) : Vec2 :=
  let camera := env.cb.camera
  let surface := env.surfaceAt tid
  let worldPos := surface.position
  let viewVector := -surface.viewDirection
  let reflectionVector := reflect3 viewVector surface.shadingNormal
  let infiniteHitT : ℝ := 1e5
  let dstPosition := worldPos + infiniteHitT • reflectionVector
  let visibility := env.traceVisibilityRay worldPos dstPosition
  let reflectionHitT := if visibility.hasOpaqueHit then visibility.hitDistance else infiniteHitT
  let reflectPosition := worldPos + reflectionHitT • viewVector
  prevFramePixelCenter camera reflectPosition

/-- Lines 175–193, the tail of the reflection-reprojection path: either
interpolate toward the reflection-based target (parallax below
`restirGIReflectionMinParallax`) or stochastically select it outright,
relaxing `depthThreshold.x` to `0.25` and disabling enlarged-pixel discard on
selection; the naive reprojection is kept as the backup coordinate in every
case. -/
noncomputable def reflectionReprojection (env : Env) (tid : Int2)
    (st : ReprojectionState) : ReprojectionState :=
  let prevReflectionCenter := prevReflectionCenterOf env tid
  let interpolateDistance := env.cb.restirGIReflectionMinParallax
  let reprojectionDistance := vlength2 (prevReflectionCenter - st.prevPixelCenter)
  let w := reflectionWeight env tid
  let entered := { st with
    reflectionReprojectionWeight := w
    prevBackupPixelCenter := st.prevPixelCenter }
  if reprojectionDistance < interpolateDistance then
    let distanceWeight := saturate (reprojectionDistance / interpolateDistance)
    let w2 := w * distanceWeight
    { entered with
      reflectionReprojectionWeight := w2
      prevPixelCenter := lerp2 entered.prevPixelCenter prevReflectionCenter w2 }
  else if env.nextRandom < w then
    { entered with
      prevPixelCenter := prevReflectionCenter
      depthThreshold := ⟨0.25, entered.depthThreshold.y⟩
      discardEnlargedPixels := false }
  else entered

/-- The guard of line 153: reflection reprojection is enabled, the reflection
weight exceeds `0.05`, and the naive reprojection diverges from the current
pixel center by more than one pixel. -/
noncomputable def reflectionReprojectionGuard (env : Env) (tid : Int2) : Prop :=
  env.cb.enableReSTIRGIReflectionReprojection = true ∧
  0.05 < reflectionWeight env tid ∧
  1 < vlength2 ((naiveReprojection env tid).prevPixelCenter -
      ⟨(tid.1 : ℝ) + 0.5, (tid.2 : ℝ) + 0.5⟩)

noncomputable instance (env : Env) (tid : Int2) :
    Decidable (reflectionReprojectionGuard env tid) := by
  unfold reflectionReprojectionGuard
  infer_instance

/-- Lines 119–194: the complete Reprojector — naive reprojection, then the
reflection-reprojection path exactly under the guard of line 153. -/
noncomputable def computeReprojection (env : Env) (tid : Int2) : ReprojectionState :=
  let st := naiveReprojection env tid
  if reflectionReprojectionGuard env tid then reflectionReprojection env tid st
  else st

/-! ## Temporal resampling parameters and the resampling core -/

/-- `ReSTIRGI_TemporalResamplingParameters` (filled at lines 196–212). -/
structure ReSTIRGI_TemporalResamplingParameters where
  temporalHistoryLength : ℕ
  enableJacobian : Bool
  enableBiasCorrection : Bool
  prevPixelCenter : Vec2
  prevBackupPixelCenter : Vec2
  resolution : Int2
  expectedPrevHitDistance : ℝ
  normalThreshold : ℝ
  depthThreshold : Vec2
  virtualMotionVector : Vec3
  uniformRandomNumber : ℕ
  enablePermutationSampling : Bool
  permutationSamplingSize : ℕ
  teleportationPortalIndex : ℤ
  discardEnlargedPixels : Bool
  sourceBufferIndex : ℕ

/-- Lines 196–212: build the resampling parameters from the constant buffer
and the reprojection state. -/
def mkTemporalResamplingParameters (env : Env) (tid : Int2)
    (st : ReprojectionState) : ReSTIRGI_TemporalResamplingParameters :=
  { temporalHistoryLength := env.cb.temporalHistoryLength
    enableJacobian := env.cb.enableReSTIRGITemporalJacobian
    enableBiasCorrection := env.cb.enableReSTIRGITemporalBiasCorrection
    prevPixelCenter := st.prevPixelCenter
    prevBackupPixelCenter := st.prevBackupPixelCenter
    resolution := env.cb.camera.resolution
    expectedPrevHitDistance := st.expectedPrevHitDistance
    normalThreshold := st.normalThreshold
    depthThreshold := st.depthThreshold
    virtualMotionVector := env.primaryVirtualMotionVectorAt tid
    uniformRandomNumber := env.cb.uniformRandomNumber
    enablePermutationSampling := env.cb.enableReSTIRGIPermutationSampling
    permutationSamplingSize := env.cb.permutationSamplingSize
    teleportationPortalIndex := env.cb.teleportationPortalIndex
    discardEnlargedPixels := st.discardEnlargedPixels
    sourceBufferIndex := env.temporalInputPage }

/-- Modelled from the spec: `ReSTIRGI_TemporalResampling` (§4.3) — its body
lives in an included RTXDI header outside the illustrated source.  Per the
spec: an out-of-bounds reprojection, an invalid or `M = 0` previous
reservoir, or a failed similarity gate yields the candidate unmodified with
`isInitialSample = true`; otherwise the weighted merge picks one of the two
samples with probability proportional to `avgWeight × M` (via the
deterministic random stream) and the merged `M` is the sum of both `M`s
clamped to `temporalHistoryLength`.  Permutation sampling perturbs the
reprojected pixel before validation when enabled. -/
noncomputable def ReSTIRGI_TemporalResampling (env : Env)
    (initialSample : ReSTIRGI_Reservoir) (tid : Int2) (_surface : RAB_Surface)
    (tparams : ReSTIRGI_TemporalResamplingParameters) :
    ReSTIRGI_Reservoir × Bool × Bool :=
  let basePixel : Int2 := (⌊tparams.prevPixelCenter.x⌋, ⌊tparams.prevPixelCenter.y⌋)
  let prevPixel : Int2 :=
    if tparams.enablePermutationSampling then
      (basePixel.1 + (env.permutationOffsetAt tid).1,
       basePixel.2 + (env.permutationOffsetAt tid).2)
    else basePixel
  if prevPixel.1 < 0 ∨ tparams.resolution.1 ≤ prevPixel.1 ∨
     prevPixel.2 < 0 ∨ tparams.resolution.2 ≤ prevPixel.2 then
    (initialSample, false, true)
  else
    match env.prevReservoirAt prevPixel with
    | none => (initialSample, false, true)
    | some prev =>
      if prev.M = 0 then (initialSample, false, true)
      else if ¬ env.gbufferSimilarAt tid prevPixel = true then (initialSample, false, true)
      else
        let clampedPrevM := min prev.M tparams.temporalHistoryLength
        let initialWeight := initialSample.avgWeight * (initialSample.M : ℝ)
        let prevWeight := prev.avgWeight * (clampedPrevM : ℝ)
        let totalWeight := initialWeight + prevWeight
        let mergedM := min (initialSample.M + prev.M) tparams.temporalHistoryLength
        let chosen := if env.mergeRandom * totalWeight < prevWeight then prev else initialSample
        ({ chosen with
            M := mergedM
            avgWeight := if totalWeight = 0 then 0 else totalWeight / (mergedM : ℝ) },
         true, false)

/-! ## Visibility revalidation and the shader entry point -/

/-- Lines 218–225: when the bias-correction mode is pairwise-raytraced and the
merge found a similar, non-initial sample, trace the sample's visibility and
clear-then-set the occluded-sample flag; otherwise the reservoir passes
through untouched. -/
def revalidateGISampleVisibility (env : Env) (surface : RAB_Surface)
    (isGBufferSimilar isInitialSample : Bool) (r : ReSTIRGI_Reservoir) :
    ReSTIRGI_Reservoir :=
  if env.cb.reSTIRGIBiasCorrectionMode = BiasCorrectionMode.pairwiseRayTraced ∧
     isGBufferSimilar = true ∧ isInitialSample = false then
    let isVisible := env.traceGISampleVisibility surface r
    (r.clearFlag RESTIR_GI_FLAG_OCCLUDED_SAMPLE).setFlag
      (if isVisible then 0 else RESTIR_GI_FLAG_OCCLUDED_SAMPLE)
  else r

/-- What one shader invocation writes: the candidate reservoir stored to the
initial-sample page (line 117) and the result reservoir stored to the
temporal-output page (line 231), plus the resampling flags. -/
structure PixelResult where
  initialSample : ReSTIRGI_Reservoir
  outputReservoir : ReSTIRGI_Reservoir
  isGBufferSimilar : Bool
  isInitialSample : Bool

/-- The type of the temporal-resampling stage as `main` consumes it, so that
theorems about the surrounding control flow hold for any resampler. -/
abbrev Resampler :=
  ReSTIRGI_Reservoir → Int2 → RAB_Surface → ReSTIRGI_TemporalResamplingParameters →
  ReSTIRGI_Reservoir × Bool × Bool

/-- The shader entry point `main`: bounds and surface-validity early exits
(no writes, modelled as `none`), candidate construction, reprojection,
temporal resampling, conditional visibility revalidation, and the forced
identity `resultReservoir = initialSample` when temporal reuse is disabled
(lines 227–230). -/
noncomputable def main (env : Env) (resample : Resampler) (tid : Int2) :
    Option PixelResult :=
  let camera := env.cb.camera
  if camera.resolution.1 ≤ tid.1 ∨ camera.resolution.2 ≤ tid.2 then none
  else
    let surface := env.surfaceAt tid
    if ¬ surface.isValid = true then none
    else
      let initialSample := buildInitialSample env tid
      let st := computeReprojection env tid
      let tparams := mkTemporalResamplingParameters env tid st
      let r := resample initialSample tid surface tparams
      let revalidated := revalidateGISampleVisibility env surface r.2.1 r.2.2 r.1
      let resultReservoir :=
        if ¬ env.cb.enableReSTIRGITemporalReuse = true then initialSample else revalidated
      some { initialSample := initialSample, outputReservoir := resultReservoir,
             isGBufferSimilar := r.2.1, isInitialSample := r.2.2 }

/-! ## Theorems -/

/-- For lists of optional values, `findSome? id` succeeds exactly when some
entry is non-null. -/
theorem findSome_id_isSome {α : Type} :
    ∀ l : List (Option α), (l.findSome? id).isSome = l.any Option.isSome := by
  intro l
  induction l with
  | nil => rfl
  | cons h t ih =>
    cases h with
    | none => simpa [List.findSome?] using ih
    | some v => simp [List.findSome?]

/-- C10: `DxvkRenderTargets::getImageSize` returns the depth target's size
whenever the depth view is non-null, otherwise the size of the first
(lowest-index) non-null color target, and `{0, 0, 0}` when no attachment is
bound; it reports the size of an actual attachment iff `hasAttachments()`. -/
theorem getImageSize_spec (rt : dxvk.DxvkRenderTargets) :
    (∀ v, rt.depthTarget = some v →
      dxvk.getImageSize rt = dxvk.renderTargetSize v) ∧
    (rt.depthTarget = none →
      dxvk.getImageSize rt =
        ((rt.colorTargets.findSome? id).map dxvk.renderTargetSize).getD ⟨0, 0, 0⟩) ∧
    (dxvk.hasAttachments rt = false → dxvk.getImageSize rt = ⟨0, 0, 0⟩) ∧
    ((∃ v, dxvk.firstAttachment rt = some v ∧
        dxvk.getImageSize rt = dxvk.renderTargetSize v) ↔
      dxvk.hasAttachments rt = true) := by
  obtain ⟨d, cs⟩ := rt
  have hany := findSome_id_isSome cs
  cases d with
  | some v =>
    refine ⟨?_, ?_, ?_, ?_⟩
    · intro u hu
      cases hu
      simp [dxvk.getImageSize]
    · intro h; cases h
    · intro h
      simp [dxvk.hasAttachments] at h
    · constructor
      · intro _
        simp [dxvk.hasAttachments]
      · intro _
        exact ⟨v, by simp [dxvk.firstAttachment], by simp [dxvk.getImageSize]⟩
  | none =>
    cases hc : cs.findSome? id with
    | some u =>
      refine ⟨?_, ?_, ?_, ?_⟩
      · intro w hw; cases hw
      · intro _
        simp [dxvk.getImageSize, hc]
      · intro h
        rw [hc] at hany
        simp [dxvk.hasAttachments, ← hany] at h
      · constructor
        · intro _
          rw [hc] at hany
          simp [dxvk.hasAttachments, ← hany]
        · intro _
          exact ⟨u, by simp [dxvk.firstAttachment, hc],
                 by simp [dxvk.getImageSize, hc]⟩
    | none =>
      refine ⟨?_, ?_, ?_, ?_⟩
      · intro w hw; cases hw
      · intro _
        simp [dxvk.getImageSize, hc]
      · intro _
        simp [dxvk.getImageSize, hc]
      · constructor
        · rintro ⟨v, hv, -⟩
          rw [dxvk.firstAttachment] at hv
          simp [hc] at hv
        · intro h
          rw [hc] at hany
          simp [dxvk.hasAttachments, ← hany] at h

/-- C10 witness: a render-target set with a bound depth view of extent
800×600×1 reports that extent, and an empty set reports it bound. -/
theorem getImageSize_spec_witness :
    dxvk.getImageSize ⟨some ⟨800, 600, 1⟩, [none, some ⟨32, 32, 4⟩]⟩ =
      ⟨800, 600, 1⟩ :=
  (getImageSize_spec ⟨some ⟨800, 600, 1⟩, [none, some ⟨32, 32, 4⟩]⟩).1 ⟨800, 600, 1⟩ rfl

/-- Clearing bit 0 of a flag word leaves bit 0 clear. -/
theorem ldiff_one_and_one (f : ℕ) : Nat.ldiff f 1 &&& 1 = 0 := by
  have h : (Nat.ldiff f 1).testBit 0 = false := by
    rw [Nat.testBit_ldiff]; simp
  rw [Nat.and_one_is_mod]
  rcases Nat.mod_two_eq_zero_or_one (Nat.ldiff f 1) with h2 | h2
  · exact h2
  · exfalso
    rw [Nat.testBit_zero] at h
    simp [h2] at h

/-- Setting bit 0 of a flag word sets bit 0. -/
theorem or_one_and_one (f : ℕ) : (f ||| 1) &&& 1 = 1 := by
  rw [Nat.and_one_is_mod]
  simp

/-- C8: the visibility-revalidation stage runs exactly when the
bias-correction mode is pairwise-raytraced, `isGBufferSimilar = true` and
`isInitialSample = false`: it then clears and re-sets the occluded-sample
flag from the traced visibility (the flag ends up as the negation of the
visibility result); under every other configuration the reservoir — its
occlusion flag included — passes through untouched. -/
theorem revalidateGISampleVisibility_spec (env : Env) (surface : RAB_Surface)
    (isGBufferSimilar isInitialSample : Bool) (r : ReSTIRGI_Reservoir) :
    (env.cb.reSTIRGIBiasCorrectionMode = BiasCorrectionMode.pairwiseRayTraced →
     isGBufferSimilar = true → isInitialSample = false →
      revalidateGISampleVisibility env surface isGBufferSimilar isInitialSample r =
        (r.clearFlag RESTIR_GI_FLAG_OCCLUDED_SAMPLE).setFlag
          (if env.traceGISampleVisibility surface r then 0
           else RESTIR_GI_FLAG_OCCLUDED_SAMPLE) ∧
      (revalidateGISampleVisibility env surface isGBufferSimilar isInitialSample
          r).hasFlag RESTIR_GI_FLAG_OCCLUDED_SAMPLE =
        ! env.traceGISampleVisibility surface r) ∧
    (¬ (env.cb.reSTIRGIBiasCorrectionMode = BiasCorrectionMode.pairwiseRayTraced ∧
        isGBufferSimilar = true ∧ isInitialSample = false) →
      revalidateGISampleVisibility env surface isGBufferSimilar isInitialSample r = r) := by
  constructor
  · intro hmode hsim hinit
    have hcond : env.cb.reSTIRGIBiasCorrectionMode = BiasCorrectionMode.pairwiseRayTraced ∧
        isGBufferSimilar = true ∧ isInitialSample = false := ⟨hmode, hsim, hinit⟩
    constructor
    · rw [revalidateGISampleVisibility, if_pos hcond]
    · rw [revalidateGISampleVisibility, if_pos hcond]
      cases hv : env.traceGISampleVisibility surface r with
      | true =>
        simp only [hv, if_true, Bool.not_true]
        rw [ReSTIRGI_Reservoir.hasFlag, ReSTIRGI_Reservoir.setFlag,
            ReSTIRGI_Reservoir.clearFlag]
        simp [RESTIR_GI_FLAG_OCCLUDED_SAMPLE, ldiff_one_and_one r.flags]
      | false =>
        simp only [hv, if_false, Bool.not_false]
        rw [ReSTIRGI_Reservoir.hasFlag, ReSTIRGI_Reservoir.setFlag,
            ReSTIRGI_Reservoir.clearFlag]
        simp [RESTIR_GI_FLAG_OCCLUDED_SAMPLE, or_one_and_one]
  · intro hcond
    rw [revalidateGISampleVisibility, if_neg hcond]

/-- C9: the Reprojector's similarity thresholds are the stated monotone
functions — the depth threshold `0.01 / max(c, 0.01)` is antitone in the
clamped absolute view-direction·triangle-normal product, and the normal
threshold `lerp(0.995, 0.5, roughness)` is antitone in isotropic roughness,
running from `0.995` at roughness `0` to `0.5` at roughness `1`; and these
are exactly the thresholds `naiveReprojection` computes. -/
theorem reprojectionThresholds_monotone :
    (∀ a b : ℝ, a ≤ b → depthThresholdOf b ≤ depthThresholdOf a) ∧
    (∀ r s : ℝ, r ≤ s → normalThresholdOf s ≤ normalThresholdOf r) ∧
    normalThresholdOf 0 = 0.995 ∧ normalThresholdOf 1 = 0.5 ∧
    (∀ (env : Env) (tid : Int2),
      (naiveReprojection env tid).depthThreshold =
        ⟨depthThresholdOf
            |dot3 (env.surfaceAt tid).viewDirection (env.surfaceAt tid).triangleNormal|,
          depthThresholdOf
            |dot3 (env.surfaceAt tid).viewDirection (env.surfaceAt tid).triangleNormal|⟩ ∧
      (naiveReprojection env tid).normalThreshold =
        normalThresholdOf (env.surfaceAt tid).isotropicRoughness) := by
  refine ⟨?_, ?_, ?_, ?_, ?_⟩
  · intro a b hab
    unfold depthThresholdOf
    have h1 : (0 : ℝ) < max a 0.01 := lt_of_lt_of_le (by norm_num) (le_max_right a 0.01)
    have h2 : max a 0.01 ≤ max b 0.01 := max_le_max hab le_rfl
    exact div_le_div_of_nonneg_left (by norm_num) h1 h2
  · intro r s hrs
    unfold normalThresholdOf lerp
    nlinarith
  · unfold normalThresholdOf lerp; norm_num
  · unfold normalThresholdOf lerp; norm_num
  · intro env tid
    exact ⟨rfl, rfl⟩

/-- C9 witness: the depth threshold at clamped dot `0.9` is at most the one
at `0.3`, and the normal threshold at roughness `0.8` is at most the one at
roughness `0.2`. -/
theorem reprojectionThresholds_monotone_witness :
    depthThresholdOf 0.9 ≤ depthThresholdOf 0.3 ∧
    normalThresholdOf 0.8 ≤ normalThresholdOf 0.2 :=
  ⟨reprojectionThresholds_monotone.1 0.3 0.9 (by norm_num),
   reprojectionThresholds_monotone.2.1 0.2 0.8 (by norm_num)⟩

/-! ## Concrete dispatch environments for the witnesses -/

/-- The identity 4×4 matrix. -/
def mat4Id : Mat4 := ⟨1, 0, 0, 0, 0, 1, 0, 0, 0, 0, 1, 0, 0, 0, 0, 1⟩

/-- A plain valid surface: shading point at the origin, normals and view
direction along +z, roughness `1/2`, white albedo and reflectivity. -/
noncomputable def sampleSurface : RAB_Surface :=
  { isValid := true
    position := vec3zero
    triangleNormal := ⟨0, 0, 1⟩
    shadingNormal := ⟨0, 0, 1⟩
    viewDirection := ⟨0, 0, 1⟩
    isotropicRoughness := 1 / 2
    albedo := ⟨1, 1, 1⟩
    baseReflectivity := ⟨1, 1, 1⟩
    virtualWorldPosition := vec3zero
    objectMask := 0
    portalSpace := 0
    isViewModel := false }

/-- A constant buffer with a 16×16 resolution, identity previous projection,
identity NDC-to-UV mapping, firefly threshold 1, history cap 20 and every
optional feature disabled. -/
noncomputable def sampleCB : ConstantBuffer :=
  { camera :=
      { resolution := (16, 16)
        prevWorldToProjection := mat4Id
        prevWorldPosition := vec3zero
        ndcToScreenUV := fun p => p }
    frameIdx := 0
    fireflyFilteringLuminanceThreshold := 1
    rayPortalHitInfos := fun _ =>
      { isActive := false, encodedPortalToOpposingPortalDirection := mat4Id }
    enableReSTIRGIVirtualSample := false
    enableReSTIRGIReflectionReprojection := false
    enableReSTIRGIDiscardEnlargedPixels := false
    enableReSTIRGITemporalReuse := false
    enableReSTIRGITemporalJacobian := false
    enableReSTIRGITemporalBiasCorrection := false
    enableReSTIRGIPermutationSampling := false
    restirGIReflectionMinParallax := 0
    temporalHistoryLength := 20
    permutationSamplingSize := 0
    teleportationPortalIndex := -1
    uniformRandomNumber := 0
    reSTIRGIBiasCorrectionMode := BiasCorrectionMode.off
    numActiveRayPortals := 0 }

/-- A concrete dispatch environment for the witnesses: `sampleCB`, the same
valid surface everywhere, zero radiance, a hit one unit along +z with no
portal crossing, zero motion, and constant oracles. -/
noncomputable def sampleEnv : Env :=
  { cb := sampleCB
    surfaceAt := fun _ => sampleSurface
    primarySelectedIntegrationSurfaceAt := fun _ => false
    restirGIRadianceAt := fun _ => ((some 0, some 0, some 0), 0)
    hitGeometryAt := fun _ => (⟨0, 0, 1⟩, ⟨0, 0, -1⟩, RESTIR_GI_INVALID_INDIRECT_LIGHT_PORTAL_ID)
    primaryVirtualMotionVectorAt := fun _ => vec3zero
    getOpposingRayPortalIndex := fun i => i
    evalOpaqueSchlickFresnel := fun _ _ => ⟨1, 1, 1⟩
    traceVisibilityRay := fun _ _ => ⟨false, 0⟩
    traceGISampleVisibility := fun _ _ => true
    nextRandom := 0
    prevReservoirAt := fun _ => none
    gbufferSimilarAt := fun _ _ => false
    permutationOffsetAt := fun _ => (0, 0)
    mergeRandom := 0
    temporalInputPage := 0 }

/-- A concrete reservoir with some flag bits already set. -/
noncomputable def sampleReservoir : ReSTIRGI_Reservoir :=
  { position := vec3zero, normal := vec3zero, radiance := vec3zero,
    M := 4, avgWeight := 2, flags := 3, virtualFraction := 0, portalID := 255 }

/-- C8 witness: with pairwise-raytraced bias correction, a similar non-initial
merge and a visible traced sample, the revalidated reservoir's
occluded-sample flag is clear. -/
theorem revalidateGISampleVisibility_spec_witness :
    (revalidateGISampleVisibility
        { sampleEnv with
          cb := { sampleCB with
                  reSTIRGIBiasCorrectionMode := BiasCorrectionMode.pairwiseRayTraced } }
        sampleSurface true false sampleReservoir).hasFlag
      RESTIR_GI_FLAG_OCCLUDED_SAMPLE = false := by
  have h := ((revalidateGISampleVisibility_spec
      { sampleEnv with
        cb := { sampleCB with
                reSTIRGIBiasCorrectionMode := BiasCorrectionMode.pairwiseRayTraced } }
      sampleSurface true false sampleReservoir).1 rfl rfl rfl).2
  simpa using h

/-! ## Component lemmas for the vector operations -/

@[simp] theorem Vec3.add_def (a b : Vec3) : a + b = ⟨a.x + b.x, a.y + b.y, a.z + b.z⟩ := rfl

@[simp] theorem Vec3.sub_def (a b : Vec3) : a - b = ⟨a.x - b.x, a.y - b.y, a.z - b.z⟩ := rfl

@[simp] theorem Vec3.neg_def (a : Vec3) : -a = ⟨-a.x, -a.y, -a.z⟩ := rfl

@[simp] theorem Vec3.smul_def (c : ℝ) (a : Vec3) : c • a = ⟨c * a.x, c * a.y, c * a.z⟩ := rfl

@[simp] theorem Vec2.sub2_def (a b : Vec2) : a - b = ⟨a.x - b.x, a.y - b.y⟩ := rfl

/-- C7: when the hit is tagged with a real portal id but the opposing portal
entry is inactive, the Candidate Builder keeps the hit position and normal
exactly as loaded (the transform is skipped); the teleport transform is
applied exactly when the opposing portal is active. -/
theorem candidateHitAfterPortal_spec (env : Env) (tid : Int2)
    (hport : (env.hitGeometryAt tid).2.2 ≠ RESTIR_GI_INVALID_INDIRECT_LIGHT_PORTAL_ID) :
    ((env.cb.rayPortalHitInfos
        (env.getOpposingRayPortalIndex (env.hitGeometryAt tid).2.2)).isActive = false →
      candidateHitAfterPortal env tid =
        ((env.hitGeometryAt tid).1, (env.hitGeometryAt tid).2.1,
         (env.hitGeometryAt tid).2.2)) ∧
    ((env.cb.rayPortalHitInfos
        (env.getOpposingRayPortalIndex (env.hitGeometryAt tid).2.2)).isActive = true →
      candidateHitAfterPortal env tid =
        (mat4TransformPoint
            (env.cb.rayPortalHitInfos
              (env.getOpposingRayPortalIndex
                (env.hitGeometryAt tid).2.2)).encodedPortalToOpposingPortalDirection
            (env.hitGeometryAt tid).1,
         mat3TransformDirection
            (env.cb.rayPortalHitInfos
              (env.getOpposingRayPortalIndex
                (env.hitGeometryAt tid).2.2)).encodedPortalToOpposingPortalDirection
            (env.hitGeometryAt tid).2.1,
         (env.hitGeometryAt tid).2.2)) := by
  constructor
  · intro hinactive
    rw [candidateHitAfterPortal]
    simp only [if_pos hport, hinactive]
    simp
  · intro hactive
    rw [candidateHitAfterPortal]
    simp only [if_pos hport, hactive]
    simp

/-- C7 witness: a hit tagged with portal id 3 whose opposing portal entry is
inactive keeps its loaded position and normal. -/
theorem candidateHitAfterPortal_spec_witness :
    candidateHitAfterPortal
        { sampleEnv with hitGeometryAt := fun _ => (⟨0, 0, 1⟩, ⟨0, 0, -1⟩, 3) } (0, 0) =
      (⟨0, 0, 1⟩, ⟨0, 0, -1⟩, 3) :=
  (candidateHitAfterPortal_spec
      { sampleEnv with hitGeometryAt := fun _ => (⟨0, 0, 1⟩, ⟨0, 0, -1⟩, 3) } (0, 0)
      (by rw [RESTIR_GI_INVALID_INDIRECT_LIGHT_PORTAL_ID]; norm_num)).1 rfl

/-- Luminance is linear under scalar scaling. -/
theorem calcBt709Luminance_smul (c : ℝ) (v : Vec3) :
    calcBt709Luminance (c • v) = c * calcBt709Luminance v := by
  simp [calcBt709Luminance]
  ring

/-- Luminance of a component-wise non-negative vector is non-negative. -/
theorem calcBt709Luminance_nonneg (v : Vec3)
    (hx : 0 ≤ v.x) (hy : 0 ≤ v.y) (hz : 0 ≤ v.z) :
    0 ≤ calcBt709Luminance v := by
  unfold calcBt709Luminance
  nlinarith

/-- The sanitized radiance is component-wise non-negative when the fallback
is the zero vector. -/
theorem sanitize_nonneg (v : Option ℝ × Option ℝ × Option ℝ) :
    0 ≤ (sanitize v vec3zero).x ∧ 0 ≤ (sanitize v vec3zero).y ∧
    0 ≤ (sanitize v vec3zero).z := by
  unfold sanitize vec3zero
  refine ⟨?_, ?_, ?_⟩
  · cases v.1 with
    | none => simp
    | some c =>
      by_cases h : c < 0
      · simp [h]
      · simp [h]; linarith
  · cases v.2.1 with
    | none => simp
    | some c =>
      by_cases h : c < 0
      · simp [h]
      · simp [h]; linarith
  · cases v.2.2 with
    | none => simp
    | some c =>
      by_cases h : c < 0
      · simp [h]
      · simp [h]; linarith

/-- Firefly filtering at a non-negative threshold bounds the luminance by the
threshold and preserves component-wise non-negativity. -/
theorem fireflyFiltering_spec (v : Vec3) (t : ℝ)
    (ht : 0 ≤ t) (hx : 0 ≤ v.x) (hy : 0 ≤ v.y) (hz : 0 ≤ v.z) :
    calcBt709Luminance (fireflyFiltering v t) ≤ t ∧
    0 ≤ (fireflyFiltering v t).x ∧ 0 ≤ (fireflyFiltering v t).y ∧
    0 ≤ (fireflyFiltering v t).z := by
  unfold fireflyFiltering
  by_cases h : t < calcBt709Luminance v
  · have hlum : 0 < calcBt709Luminance v := lt_of_le_of_lt ht h
    have hscale : 0 ≤ t / calcBt709Luminance v := div_nonneg ht hlum.le
    rw [if_pos h]
    refine ⟨?_, ?_, ?_, ?_⟩
    · rw [calcBt709Luminance_smul, div_mul_cancel₀ t (ne_of_gt hlum)]
    · simpa using mul_nonneg hscale hx
    · simpa using mul_nonneg hscale hy
    · simpa using mul_nonneg hscale hz
  · rw [if_neg h]
    exact ⟨le_of_not_lt h, hx, hy, hz⟩

/-- The virtual-sample step never touches the radiance: the built reservoir's
radiance is exactly the loaded-and-filtered one. -/
theorem buildInitialSample_radiance (env : Env) (tid : Int2) :
    (buildInitialSample env tid).radiance =
      (candidateRadianceAndPathLength env tid).1 := by
  simp only [buildInitialSample]
  split
  · split
    · rfl
    · rfl
  · rfl

/-- C6: every radiance the Candidate Builder produces has luminance at most
the configured firefly luminance threshold times 30, all its components are
non-negative finite reals (NaN/Inf inputs are sanitized away by
construction), and it is zero when the pixel holds no primary selected
integration sample. -/
theorem candidateRadiance_spec (env : Env) (tid : Int2)
    (ht : 0 ≤ env.cb.fireflyFilteringLuminanceThreshold) :
    calcBt709Luminance (buildInitialSample env tid).radiance ≤
      env.cb.fireflyFilteringLuminanceThreshold * fireflyFilteringFactor ∧
    0 ≤ (buildInitialSample env tid).radiance.x ∧
    0 ≤ (buildInitialSample env tid).radiance.y ∧
    0 ≤ (buildInitialSample env tid).radiance.z ∧
    (env.primarySelectedIntegrationSurfaceAt tid = false →
      (buildInitialSample env tid).radiance = vec3zero) := by
  have ht30 : 0 ≤ env.cb.fireflyFilteringLuminanceThreshold * fireflyFilteringFactor := by
    unfold fireflyFilteringFactor
    nlinarith
  rw [buildInitialSample_radiance]
  unfold candidateRadianceAndPathLength
  by_cases hp : env.primarySelectedIntegrationSurfaceAt tid = true
  · simp only [hp, if_true]
    obtain ⟨hx, hy, hz⟩ := sanitize_nonneg (env.restirGIRadianceAt tid).1
    obtain ⟨h1, h2, h3, h4⟩ := fireflyFiltering_spec _ _ ht30 hx hy hz
    refine ⟨h1, h2, h3, h4, ?_⟩
    intro hfalse
    exact Bool.noConfusion hfalse
  · have hp' : env.primarySelectedIntegrationSurfaceAt tid = false := by
      cases h : env.primarySelectedIntegrationSurfaceAt tid
      · rfl
      · exact absurd h hp
    simp only [hp', Bool.false_eq_true, if_false]
    have hzero : fireflyFiltering vec3zero
        (env.cb.fireflyFilteringLuminanceThreshold * fireflyFilteringFactor) = vec3zero := by
      unfold fireflyFiltering
      rw [if_neg]
      rw [not_lt]
      have : calcBt709Luminance vec3zero = 0 := by
        unfold calcBt709Luminance vec3zero
        norm_num
      rw [this]
      exact ht30
    rw [hzero]
    have : calcBt709Luminance vec3zero = 0 := by
      unfold calcBt709Luminance vec3zero
      norm_num
    rw [this]
    unfold vec3zero
    exact ⟨ht30, le_refl 0, le_refl 0, le_refl 0, fun _ => rfl⟩

/-- C6 witness: in the sample environment (threshold 1, no primary sample)
the candidate radiance is zero and its luminance is within `1 × 30`. -/
theorem candidateRadiance_spec_witness :
    calcBt709Luminance (buildInitialSample sampleEnv (0, 0)).radiance ≤
      sampleEnv.cb.fireflyFilteringLuminanceThreshold * fireflyFilteringFactor ∧
    (buildInitialSample sampleEnv (0, 0)).radiance = vec3zero :=
  ⟨(candidateRadiance_spec sampleEnv (0, 0) (by norm_num [sampleEnv, sampleCB])).1,
   (candidateRadiance_spec sampleEnv (0, 0) (by norm_num [sampleEnv, sampleCB])).2.2.2.2 rfl⟩

/-- C3 (amended): when virtual-sample extrapolation is enabled, the roughness
exceeds the delta-roughness threshold, the surface-to-hit direction is
nonzero, and the indirect path length exceeds the straight-line distance by
more than 1%, the Candidate Builder repositions the sample along the
normalized surface-to-hit direction at distance equal to the full indirect
path length, sets the normal to the negated normalized direction, and records
`1.2 ×` the path-length surplus as the reservoir's virtual fraction. -/
theorem buildInitialSample_virtualSample_spec (env : Env) (tid : Int2)
    (hen : env.cb.enableReSTIRGIVirtualSample = true)
    (hrough : RAB_RESTIR_GI_DELTA_ROUGHNESS < (env.surfaceAt tid).isotropicRoughness)
    (hdir : ¬ ((candidateHitAfterPortal env tid).1 -
          (env.surfaceAt tid).position).x = 0 ∨
        ¬ ((candidateHitAfterPortal env tid).1 - (env.surfaceAt tid).position).y = 0 ∨
        ¬ ((candidateHitAfterPortal env tid).1 - (env.surfaceAt tid).position).z = 0)
    (hlen : vlength ((candidateHitAfterPortal env tid).1 -
          (env.surfaceAt tid).position) * 1.01 <
        (candidateRadianceAndPathLength env tid).2) :
    (buildInitialSample env tid).position =
      (env.surfaceAt tid).position +
        (candidateRadianceAndPathLength env tid).2 •
          vnormalize ((candidateHitAfterPortal env tid).1 - (env.surfaceAt tid).position) ∧
    (buildInitialSample env tid).normal =
      -(vnormalize ((candidateHitAfterPortal env tid).1 - (env.surfaceAt tid).position)) ∧
    (buildInitialSample env tid).virtualFraction =
      ((candidateRadianceAndPathLength env tid).2 -
        vlength ((candidateHitAfterPortal env tid).1 - (env.surfaceAt tid).position)) * 1.2 := by
  simp only [buildInitialSample]
  split
  · split
    · exact ⟨rfl, rfl, rfl⟩
    · next h2 => exact absurd ⟨hdir, hlen⟩ h2
  · next h => exact absurd ⟨hen, hrough⟩ h

/-- A dispatch environment exercising the virtual-sample path: extrapolation
enabled, a primary radiance sample with indirect path length 2, and the hit
one unit along +z from the surface at the origin. -/
noncomputable def virtualSampleEnv : Env :=
  { sampleEnv with
    cb := { sampleCB with enableReSTIRGIVirtualSample := true }
    primarySelectedIntegrationSurfaceAt := fun _ => true
    restirGIRadianceAt := fun _ => ((some 0, some 0, some 0), 2) }

/-- In the virtual-sample environment the hit geometry is not portal-tagged,
so the portal step passes it through. -/
theorem virtualSampleEnv_hit :
    candidateHitAfterPortal virtualSampleEnv (0, 0) =
      (⟨0, 0, 1⟩, ⟨0, 0, -1⟩, RESTIR_GI_INVALID_INDIRECT_LIGHT_PORTAL_ID) := rfl

/-- In the virtual-sample environment the loaded indirect path length is 2. -/
theorem virtualSampleEnv_pathLength :
    (candidateRadianceAndPathLength virtualSampleEnv (0, 0)).2 = 2 := rfl

/-- The surface-to-hit direction in the virtual-sample environment. -/
theorem virtualSampleEnv_direction :
    (candidateHitAfterPortal virtualSampleEnv (0, 0)).1 -
      (virtualSampleEnv.surfaceAt (0, 0)).position = ⟨0, 0, 1⟩ := by
  rw [virtualSampleEnv_hit]
  show (⟨0, 0, 1⟩ : Vec3) - vec3zero = ⟨0, 0, 1⟩
  rw [Vec3.sub_def, vec3zero]
  norm_num

/-- The unit +z vector has length one. -/
theorem vlength_unitZ : vlength ⟨0, 0, 1⟩ = 1 := by
  rw [vlength, dot3]
  norm_num

/-- The unit +z vector normalizes to itself. -/
theorem vnormalize_unitZ : vnormalize ⟨0, 0, 1⟩ = ⟨0, 0, 1⟩ := by
  rw [vnormalize, vlength_unitZ]
  rw [Vec3.smul_def]
  norm_num

/-- The virtual-sample guards hold in the virtual-sample environment. -/
theorem virtualSampleEnv_guards :
    RAB_RESTIR_GI_DELTA_ROUGHNESS <
      (virtualSampleEnv.surfaceAt (0, 0)).isotropicRoughness ∧
    ¬ ((candidateHitAfterPortal virtualSampleEnv (0, 0)).1 -
        (virtualSampleEnv.surfaceAt (0, 0)).position).z = 0 ∧
    vlength ((candidateHitAfterPortal virtualSampleEnv (0, 0)).1 -
        (virtualSampleEnv.surfaceAt (0, 0)).position) * 1.01 <
      (candidateRadianceAndPathLength virtualSampleEnv (0, 0)).2 := by
  refine ⟨?_, ?_, ?_⟩
  · show RAB_RESTIR_GI_DELTA_ROUGHNESS < sampleSurface.isotropicRoughness
    rw [RAB_RESTIR_GI_DELTA_ROUGHNESS, sampleSurface]
    norm_num
  · rw [virtualSampleEnv_direction]
    norm_num
  · rw [virtualSampleEnv_direction, vlength_unitZ, virtualSampleEnv_pathLength]
    norm_num

/-- The Candidate Builder places the virtual sample at distance 2 (the full
indirect path length) along +z in the virtual-sample environment. -/
theorem virtualSampleEnv_position :
    (buildInitialSample virtualSampleEnv (0, 0)).position = ⟨0, 0, 2⟩ := by
  obtain ⟨hrough, hdz, hlen⟩ := virtualSampleEnv_guards
  simp only [buildInitialSample]
  split
  · split
    · show (virtualSampleEnv.surfaceAt (0, 0)).position +
          (candidateRadianceAndPathLength virtualSampleEnv (0, 0)).2 •
            vnormalize ((candidateHitAfterPortal virtualSampleEnv (0, 0)).1 -
              (virtualSampleEnv.surfaceAt (0, 0)).position) = ⟨0, 0, 2⟩
      rw [virtualSampleEnv_direction, vnormalize_unitZ, virtualSampleEnv_pathLength]
      show vec3zero + (2 : ℝ) • (⟨0, 0, 1⟩ : Vec3) = ⟨0, 0, 2⟩
      rw [Vec3.smul_def, vec3zero, Vec3.add_def]
      norm_num
    · next h2 => exact absurd ⟨Or.inr (Or.inr hdz), hlen⟩ h2
  · next h => exact absurd ⟨rfl, hrough⟩ h

/-- C3 counterexample: in a concrete environment satisfying every hypothesis
of the claim (extrapolation enabled, roughness `1/2`, surface-to-hit
direction `+z` of length 1, indirect path length 2), the repositioned sample
sits at distance 2 — the full path length — and *not* at distance
`1 + 1.2 × (2 − 1) = 2.2` as "extended by 1.2 times the path-length surplus"
would demand. -/
theorem buildInitialSample_virtualSample_counterexample :
    virtualSampleEnv.cb.enableReSTIRGIVirtualSample = true ∧
    RAB_RESTIR_GI_DELTA_ROUGHNESS <
      (virtualSampleEnv.surfaceAt (0, 0)).isotropicRoughness ∧
    ¬ ((candidateHitAfterPortal virtualSampleEnv (0, 0)).1 -
        (virtualSampleEnv.surfaceAt (0, 0)).position).z = 0 ∧
    vlength ((candidateHitAfterPortal virtualSampleEnv (0, 0)).1 -
        (virtualSampleEnv.surfaceAt (0, 0)).position) * 1.01 <
      (candidateRadianceAndPathLength virtualSampleEnv (0, 0)).2 ∧
    (buildInitialSample virtualSampleEnv (0, 0)).position ≠
      (virtualSampleEnv.surfaceAt (0, 0)).position +
        (vlength ((candidateHitAfterPortal virtualSampleEnv (0, 0)).1 -
            (virtualSampleEnv.surfaceAt (0, 0)).position) +
          1.2 * ((candidateRadianceAndPathLength virtualSampleEnv (0, 0)).2 -
            vlength ((candidateHitAfterPortal virtualSampleEnv (0, 0)).1 -
              (virtualSampleEnv.surfaceAt (0, 0)).position))) •
          vnormalize ((candidateHitAfterPortal virtualSampleEnv (0, 0)).1 -
            (virtualSampleEnv.surfaceAt (0, 0)).position) := by
  obtain ⟨hrough, hdz, hlen⟩ := virtualSampleEnv_guards
  refine ⟨rfl, hrough, hdz, hlen, ?_⟩
  rw [virtualSampleEnv_position, virtualSampleEnv_direction, vlength_unitZ,
      virtualSampleEnv_pathLength, vnormalize_unitZ]
  show (⟨0, 0, 2⟩ : Vec3) ≠ vec3zero + ((1 : ℝ) + 1.2 * (2 - 1)) • (⟨0, 0, 1⟩ : Vec3)
  rw [Vec3.smul_def, vec3zero, Vec3.add_def]
  intro h
  have hz := congrArg Vec3.z h
  norm_num at hz

/-- C3 witness (for the amended claim): in the virtual-sample environment the
built sample's normal is the negated normalized surface-to-hit direction,
`(0, 0, -1)`, and its virtual fraction is `1.2 × (2 − 1)`. -/
theorem buildInitialSample_virtualSample_spec_witness :
    (buildInitialSample virtualSampleEnv (0, 0)).normal = ⟨0, 0, -1⟩ ∧
    (buildInitialSample virtualSampleEnv (0, 0)).virtualFraction = 1.2 := by
  obtain ⟨hrough, hdz, hlen⟩ := virtualSampleEnv_guards
  have h := buildInitialSample_virtualSample_spec virtualSampleEnv (0, 0) rfl hrough
    (Or.inr (Or.inr hdz)) hlen
  constructor
  · rw [h.2.1, virtualSampleEnv_direction, vnormalize_unitZ]
    rw [Vec3.neg_def]
    norm_num
  · rw [h.2.2, virtualSampleEnv_direction, vlength_unitZ, virtualSampleEnv_pathLength]
    norm_num

/-- The candidate reservoir always carries `M = 1`. -/
theorem buildInitialSample_M (env : Env) (tid : Int2) :
    (buildInitialSample env tid).M = 1 := by
  simp only [buildInitialSample]
  split
  · split
    · rfl
    · rfl
  · rfl

/-- Visibility revalidation never changes the reservoir's `M`. -/
theorem revalidateGISampleVisibility_M (env : Env) (surface : RAB_Surface)
    (s i : Bool) (r : ReSTIRGI_Reservoir) :
    (revalidateGISampleVisibility env surface s i r).M = r.M := by
  unfold revalidateGISampleVisibility
  split
  · rfl
  · rfl

/-- The spec-modelled resampling core keeps `M` between 1 and the history
cap whenever the candidate has `M = 1` and the cap is at least 1. -/
theorem ReSTIRGI_TemporalResampling_M (env : Env) (initial : ReSTIRGI_Reservoir)
    (tid : Int2) (surface : RAB_Surface)
    (tparams : ReSTIRGI_TemporalResamplingParameters)
    (hM : initial.M = 1) (hcap : 1 ≤ tparams.temporalHistoryLength) :
    1 ≤ (ReSTIRGI_TemporalResampling env initial tid surface tparams).1.M ∧
    (ReSTIRGI_TemporalResampling env initial tid surface tparams).1.M ≤
      tparams.temporalHistoryLength := by
  unfold ReSTIRGI_TemporalResampling
  dsimp only
  repeat' split
  all_goals dsimp only
  all_goals exact ⟨by omega, by omega⟩

/-- C1: if `enableReSTIRGITemporalReuse` is false, every in-bounds pixel with
a valid surface writes the candidate reservoir itself to the temporal output
page — the identity law — regardless of what the resampling stage (any
`Resampler`) and the visibility-revalidation stage computed. -/
theorem main_temporalReuseDisabled_identity (env : Env) (resample : Resampler)
    (tid : Int2)
    (hx : tid.1 < env.cb.camera.resolution.1)
    (hy : tid.2 < env.cb.camera.resolution.2)
    (hs : (env.surfaceAt tid).isValid = true)
    (hoff : env.cb.enableReSTIRGITemporalReuse = false) :
    ∃ o, main env resample tid = some o ∧ o.outputReservoir = o.initialSample := by
  have hb : ¬ (env.cb.camera.resolution.1 ≤ tid.1 ∨
      env.cb.camera.resolution.2 ≤ tid.2) := by
    push_neg
    exact ⟨hx, hy⟩
  simp only [main]
  rw [if_neg hb, if_neg (fun hc => hc hs)]
  refine ⟨_, rfl, ?_⟩
  simp only [hoff]
  simp

/-- C1 witness: in the sample environment (temporal reuse disabled) pixel
`(0, 0)` with a resampler that rewrites the reservoir arbitrarily still
outputs the candidate. -/
theorem main_temporalReuseDisabled_identity_witness :
    ∃ o, main sampleEnv
        (fun r _ _ _ => (r.setFlag RESTIR_GI_FLAG_OCCLUDED_SAMPLE, true, false)) (0, 0) =
        some o ∧ o.outputReservoir = o.initialSample :=
  main_temporalReuseDisabled_identity sampleEnv
    (fun r _ _ _ => (r.setFlag RESTIR_GI_FLAG_OCCLUDED_SAMPLE, true, false)) (0, 0)
    (by show (0 : ℤ) < 16; norm_num) (by show (0 : ℤ) < 16; norm_num) rfl rfl

/-- C2: with the spec-modelled resampling core, every reservoir this pass
produces — the candidate written to the initial-sample page and the result
written to the temporal output page — has `1 ≤ M` and
`M ≤ temporalHistoryLength`, provided the configured cap is at least 1. -/
theorem main_reservoir_M_bounds (env : Env) (tid : Int2)
    (hcap : 1 ≤ env.cb.temporalHistoryLength)
    (hx : tid.1 < env.cb.camera.resolution.1)
    (hy : tid.2 < env.cb.camera.resolution.2)
    (hs : (env.surfaceAt tid).isValid = true) :
    ∃ o, main env (ReSTIRGI_TemporalResampling env) tid = some o ∧
      1 ≤ o.initialSample.M ∧ o.initialSample.M ≤ env.cb.temporalHistoryLength ∧
      1 ≤ o.outputReservoir.M ∧ o.outputReservoir.M ≤ env.cb.temporalHistoryLength := by
  have hb : ¬ (env.cb.camera.resolution.1 ≤ tid.1 ∨
      env.cb.camera.resolution.2 ≤ tid.2) := by
    push_neg
    exact ⟨hx, hy⟩
  have hMinit := buildInitialSample_M env tid
  have hMres := ReSTIRGI_TemporalResampling_M env (buildInitialSample env tid) tid
    (env.surfaceAt tid)
    (mkTemporalResamplingParameters env tid (computeReprojection env tid))
    hMinit hcap
  simp only [main]
  rw [if_neg hb, if_neg (fun hc => hc hs)]
  refine ⟨_, rfl, ?_, ?_, ?_, ?_⟩
  · dsimp only
    rw [hMinit]
  · dsimp only
    rw [hMinit]
    exact hcap
  · dsimp only
    split
    · rw [hMinit]
    · rw [revalidateGISampleVisibility_M]
      exact hMres.1
  · dsimp only
    split
    · rw [hMinit]
      exact hcap
    · rw [revalidateGISampleVisibility_M]
      exact hMres.2

/-- C2 witness: in the sample environment (history cap 20) pixel `(0, 0)`
produces reservoirs whose `M` lies within the bounds. -/
theorem main_reservoir_M_bounds_witness :
    ∃ o, main sampleEnv (ReSTIRGI_TemporalResampling sampleEnv) (0, 0) = some o ∧
      1 ≤ o.initialSample.M ∧ o.initialSample.M ≤ sampleEnv.cb.temporalHistoryLength ∧
      1 ≤ o.outputReservoir.M ∧
      o.outputReservoir.M ≤ sampleEnv.cb.temporalHistoryLength :=
  main_reservoir_M_bounds sampleEnv (0, 0) (by show 1 ≤ 20; norm_num)
    (by show (0 : ℤ) < 16; norm_num) (by show (0 : ℤ) < 16; norm_num) rfl

/-- `vec2` lengths are non-negative. -/
theorem vlength2_nonneg (a : Vec2) : 0 ≤ vlength2 a := Real.sqrt_nonneg _

/-- C4 (amended): the reflection-reprojection path is entered exactly when
reflection reprojection is enabled, the specular weight (Fresnel-vs-albedo
luminance ratio times one-minus-roughness) exceeds `0.05`, and the naive
motion-vector reprojection target diverges from the *current pixel center* by
more than one pixel (line 153 — not from the reflection-based target, which
is only computed inside the branch); otherwise the Reprojector's result is
the naive motion-vector reprojection unchanged. -/
theorem computeReprojection_guard_spec (env : Env) (tid : Int2) :
    (reflectionReprojectionGuard env tid ↔
      (env.cb.enableReSTIRGIReflectionReprojection = true ∧
       0.05 < specularReflectionWeight env tid ∧
       1 < vlength2 ((naiveReprojection env tid).prevPixelCenter -
           ⟨(tid.1 : ℝ) + 0.5, (tid.2 : ℝ) + 0.5⟩))) ∧
    (reflectionReprojectionGuard env tid →
      computeReprojection env tid =
        reflectionReprojection env tid (naiveReprojection env tid)) ∧
    (¬ reflectionReprojectionGuard env tid →
      computeReprojection env tid = naiveReprojection env tid) := by
  refine ⟨?_, ?_, ?_⟩
  · unfold reflectionReprojectionGuard reflectionWeight
    constructor
    · rintro ⟨he, hw, hd⟩
      rw [he] at hw
      refine ⟨he, ?_, hd⟩
      simpa using hw
    · rintro ⟨he, hw, hd⟩
      refine ⟨he, ?_, hd⟩
      rw [he]
      simpa using hw
  · intro h
    unfold computeReprojection
    rw [if_pos h]
  · intro h
    unfold computeReprojection
    rw [if_neg h]

/-- C4 witness: in the sample environment reflection reprojection is disabled,
so the Reprojector returns the naive reprojection unchanged. -/
theorem computeReprojection_guard_spec_witness :
    computeReprojection sampleEnv (0, 0) = naiveReprojection sampleEnv (0, 0) :=
  (computeReprojection_guard_spec sampleEnv (0, 0)).2.2
    (fun h => Bool.noConfusion h.1)

/-- C5: inside the reflection path, when the distance between the diffuse and
reflection-based targets is at or above the parallax threshold, the
reflection target is selected outright exactly when the next random draw is
below the specular selection weight — on selection `depthThreshold.x`
becomes `0.25` and enlarged-pixel discard is turned off, the non-selected
diffuse target staying as the backup coordinate; without selection only the
backup and the weight change; and outside the reflection path the backup
coordinate keeps the sentinel `-1`. -/
theorem reflectionReprojection_selection_spec (env : Env) (tid : Int2)
    (st : ReprojectionState)
    (hd : ¬ vlength2 (prevReflectionCenterOf env tid - st.prevPixelCenter) <
        env.cb.restirGIReflectionMinParallax) :
    (env.nextRandom < reflectionWeight env tid →
      reflectionReprojection env tid st =
        { st with
          prevPixelCenter := prevReflectionCenterOf env tid
          prevBackupPixelCenter := st.prevPixelCenter
          depthThreshold := ⟨0.25, st.depthThreshold.y⟩
          discardEnlargedPixels := false
          reflectionReprojectionWeight := reflectionWeight env tid }) ∧
    (¬ env.nextRandom < reflectionWeight env tid →
      reflectionReprojection env tid st =
        { st with
          prevBackupPixelCenter := st.prevPixelCenter
          reflectionReprojectionWeight := reflectionWeight env tid }) ∧
    (¬ reflectionReprojectionGuard env tid →
      (computeReprojection env tid).prevBackupPixelCenter = ⟨-1, -1⟩) := by
  refine ⟨?_, ?_, ?_⟩
  · intro hr
    unfold reflectionReprojection
    rw [if_neg hd, if_pos hr]
  · intro hr
    unfold reflectionReprojection
    rw [if_neg hd, if_neg hr]
  · intro h
    unfold computeReprojection
    rw [if_neg h]
    rfl

/-- A dispatch environment exercising the stochastic reflection selection:
reflection reprojection enabled, a mirror surface (roughness 0), parallax
threshold 0, a traced reflection hit at distance 2 and a zero random draw. -/
noncomputable def reflectionEnv : Env :=
  { sampleEnv with
    cb := { sampleCB with
            enableReSTIRGIReflectionReprojection := true
            restirGIReflectionMinParallax := 0 }
    surfaceAt := fun _ =>
      { sampleSurface with
        isotropicRoughness := 0
        virtualWorldPosition := ⟨7 / 32, 9 / 32, 0⟩ }
    traceVisibilityRay := fun _ _ => ⟨true, 2⟩
    nextRandom := 0 }

/-- The selection weight in the reflection environment is `1/2`. -/
theorem reflectionEnv_weight : reflectionWeight reflectionEnv (0, 0) = 1 / 2 := by
  have he : reflectionEnv.cb.enableReSTIRGIReflectionReprojection = true := rfl
  unfold reflectionWeight
  rw [he]
  show specularReflectionWeight reflectionEnv (0, 0) = 1 / 2
  unfold specularReflectionWeight
  show calcBt709Luminance ⟨1, 1, 1⟩ /
      (calcBt709Luminance ⟨1, 1, 1⟩ + calcBt709Luminance ⟨1, 1, 1⟩) * (1 - 0) = 1 / 2
  unfold calcBt709Luminance
  norm_num

/-- C5 witness: in the reflection environment the zero draw is below the
weight `1/2` and the parallax threshold is 0, so the reflection target is
selected: the depth tolerance relaxes to `0.25` and enlarged-pixel discard
turns off. -/
theorem reflectionReprojection_selection_spec_witness :
    (reflectionReprojection reflectionEnv (0, 0)
        (naiveReprojection reflectionEnv (0, 0))).depthThreshold.x = 0.25 ∧
    (reflectionReprojection reflectionEnv (0, 0)
        (naiveReprojection reflectionEnv (0, 0))).discardEnlargedPixels = false := by
  have hd : ¬ vlength2 (prevReflectionCenterOf reflectionEnv (0, 0) -
      (naiveReprojection reflectionEnv (0, 0)).prevPixelCenter) <
      reflectionEnv.cb.restirGIReflectionMinParallax := by
    show ¬ _ < (0 : ℝ)
    rw [not_lt]
    exact vlength2_nonneg _
  have hr : reflectionEnv.nextRandom < reflectionWeight reflectionEnv (0, 0) := by
    rw [reflectionEnv_weight]
    show (0 : ℝ) < 1 / 2
    norm_num
  have h := (reflectionReprojection_selection_spec reflectionEnv (0, 0)
      (naiveReprojection reflectionEnv (0, 0)) hd).1 hr
  rw [h]
  exact ⟨rfl, rfl⟩

/-- With the sample camera (identity previous projection, identity NDC-to-UV,
16×16 resolution) a world position reprojects to 16 times its xy. -/
theorem sampleCamera_prevFramePixelCenter (p : Vec3) :
    prevFramePixelCenter sampleCB.camera p = ⟨p.x * 16, p.y * 16⟩ := by
  show (⟨((1 * p.x + 0 * p.y + 0 * p.z + 0) / (0 * p.x + 0 * p.y + 0 * p.z + 1)) *
          (((16 : ℤ) : ℝ)),
        ((0 * p.x + 1 * p.y + 0 * p.z + 0) / (0 * p.x + 0 * p.y + 0 * p.z + 1)) *
          (((16 : ℤ) : ℝ))⟩ : Vec2) = ⟨p.x * 16, p.y * 16⟩
  have h1 : (0 : ℝ) * p.x + 0 * p.y + 0 * p.z + 1 = 1 := by ring
  rw [h1]
  push_cast
  simp only [Vec2.mk.injEq]
  constructor
  · field_simp
  · field_simp

/-- A dispatch environment where the reflection-based reprojection target
*coincides* with the naive target while the naive target sits five pixels
from the current pixel center: reflection reprojection enabled, mirror
surface at `(7/32, 9/32, 2)` looking down −z, previous virtual world
position `(7/32, 9/32, 0)`, traced reflection hit at distance 2 (so the
virtually-reflected point is the same world point the naive reprojection
projects), parallax threshold 0 and a zero random draw. -/
noncomputable def reflectionAgreeEnv : Env :=
  { sampleEnv with
    cb := { sampleCB with
            enableReSTIRGIReflectionReprojection := true
            restirGIReflectionMinParallax := 0 }
    surfaceAt := fun _ =>
      { sampleSurface with
        isotropicRoughness := 0
        position := ⟨7 / 32, 9 / 32, 2⟩
        virtualWorldPosition := ⟨7 / 32, 9 / 32, 0⟩ }
    traceVisibilityRay := fun _ _ => ⟨true, 2⟩
    nextRandom := 0 }

/-- The specular weight in the agreeing-reflection environment is `1/2`. -/
theorem reflectionAgreeEnv_specWeight :
    specularReflectionWeight reflectionAgreeEnv (0, 0) = 1 / 2 := by
  unfold specularReflectionWeight
  show calcBt709Luminance ⟨1, 1, 1⟩ /
      (calcBt709Luminance ⟨1, 1, 1⟩ + calcBt709Luminance ⟨1, 1, 1⟩) * (1 - 0) = 1 / 2
  unfold calcBt709Luminance
  norm_num

/-- The naive reprojection target in the agreeing-reflection environment. -/
theorem reflectionAgreeEnv_naiveCenter :
    (naiveReprojection reflectionAgreeEnv (0, 0)).prevPixelCenter = ⟨7 / 2, 9 / 2⟩ := by
  show prevFramePixelCenter sampleCB.camera ((⟨7 / 32, 9 / 32, 0⟩ : Vec3) + vec3zero) =
      (⟨7 / 2, 9 / 2⟩ : Vec2)
  have hadd : (⟨7 / 32, 9 / 32, 0⟩ : Vec3) + vec3zero = ⟨7 / 32, 9 / 32, 0⟩ := by
    rw [vec3zero, Vec3.add_def]
    norm_num
  rw [hadd, sampleCamera_prevFramePixelCenter]
  simp only [Vec2.mk.injEq]
  norm_num

/-- The reflection-based reprojection target in the agreeing-reflection
environment coincides with the naive one. -/
theorem reflectionAgreeEnv_reflCenter :
    prevReflectionCenterOf reflectionAgreeEnv (0, 0) = ⟨7 / 2, 9 / 2⟩ := by
  show prevFramePixelCenter sampleCB.camera
      ((⟨7 / 32, 9 / 32, 2⟩ : Vec3) + (2 : ℝ) • -(⟨0, 0, 1⟩ : Vec3)) = (⟨7 / 2, 9 / 2⟩ : Vec2)
  have hadd : (⟨7 / 32, 9 / 32, 2⟩ : Vec3) + (2 : ℝ) • -(⟨0, 0, 1⟩ : Vec3) =
      ⟨7 / 32, 9 / 32, 0⟩ := by
    rw [Vec3.neg_def, Vec3.smul_def, Vec3.add_def]
    norm_num
  rw [hadd, sampleCamera_prevFramePixelCenter]
  simp only [Vec2.mk.injEq]
  norm_num

/-- C4 counterexample: in `reflectionAgreeEnv` reflection reprojection is
enabled, the specular weight is `1/2 > 0.05`, and the naive and
reflection-based reprojection targets *coincide* (divergence 0, not more
than one pixel) — by the claim the reflection path must not be entered and
the naive reprojection must pass through unchanged.  The code enters it
anyway (its guard, line 153, measures the naive target against the current
pixel center, five pixels away): the depth tolerance is relaxed to `0.25`,
the backup coordinate leaves the sentinel `-1`, and the result differs from
the naive reprojection. -/
theorem computeReprojection_divergence_counterexample :
    reflectionAgreeEnv.cb.enableReSTIRGIReflectionReprojection = true ∧
    0.05 < specularReflectionWeight reflectionAgreeEnv (0, 0) ∧
    ¬ 1 < vlength2 (prevReflectionCenterOf reflectionAgreeEnv (0, 0) -
        (naiveReprojection reflectionAgreeEnv (0, 0)).prevPixelCenter) ∧
    (computeReprojection reflectionAgreeEnv (0, 0)).depthThreshold.x = 0.25 ∧
    (computeReprojection reflectionAgreeEnv (0, 0)).prevBackupPixelCenter ≠ ⟨-1, -1⟩ ∧
    computeReprojection reflectionAgreeEnv (0, 0) ≠
      naiveReprojection reflectionAgreeEnv (0, 0) := by
  have hweight := reflectionAgreeEnv_specWeight
  have hnaive := reflectionAgreeEnv_naiveCenter
  have hrefl := reflectionAgreeEnv_reflCenter
  have hrw : reflectionWeight reflectionAgreeEnv (0, 0) = 1 / 2 := by
    have he : reflectionAgreeEnv.cb.enableReSTIRGIReflectionReprojection = true := rfl
    unfold reflectionWeight
    rw [he]
    simpa using hweight
  have hdist : 1 < vlength2 ((naiveReprojection reflectionAgreeEnv (0, 0)).prevPixelCenter -
      ⟨((0 : ℤ) : ℝ) + 0.5, ((0 : ℤ) : ℝ) + 0.5⟩) := by
    rw [hnaive, Vec2.sub2_def]
    have h34 : (⟨7 / 2 - (((0 : ℤ) : ℝ) + 0.5), 9 / 2 - (((0 : ℤ) : ℝ) + 0.5)⟩ : Vec2) =
        ⟨3, 4⟩ := by
      simp only [Vec2.mk.injEq]
      norm_num
    rw [h34, vlength2]
    show 1 < Real.sqrt (3 * 3 + 4 * 4)
    rw [show (3 : ℝ) * 3 + 4 * 4 = 5 ^ 2 by norm_num,
        Real.sqrt_sq (by norm_num : (0 : ℝ) ≤ 5)]
    norm_num
  have hguard : reflectionReprojectionGuard reflectionAgreeEnv (0, 0) := by
    unfold reflectionReprojectionGuard
    refine ⟨rfl, ?_, hdist⟩
    rw [hrw]
    norm_num
  have hcomp : computeReprojection reflectionAgreeEnv (0, 0) =
      reflectionReprojection reflectionAgreeEnv (0, 0)
        (naiveReprojection reflectionAgreeEnv (0, 0)) := by
    unfold computeReprojection
    rw [if_pos hguard]
  have hd0 : ¬ vlength2 (prevReflectionCenterOf reflectionAgreeEnv (0, 0) -
      (naiveReprojection reflectionAgreeEnv (0, 0)).prevPixelCenter) <
      reflectionAgreeEnv.cb.restirGIReflectionMinParallax := by
    show ¬ _ < (0 : ℝ)
    rw [not_lt]
    exact vlength2_nonneg _
  have hrand : reflectionAgreeEnv.nextRandom < reflectionWeight reflectionAgreeEnv (0, 0) := by
    rw [hrw]
    show (0 : ℝ) < 1 / 2
    norm_num
  have hres : reflectionReprojection reflectionAgreeEnv (0, 0)
      (naiveReprojection reflectionAgreeEnv (0, 0)) =
      { naiveReprojection reflectionAgreeEnv (0, 0) with
        prevPixelCenter := prevReflectionCenterOf reflectionAgreeEnv (0, 0)
        prevBackupPixelCenter := (naiveReprojection reflectionAgreeEnv (0, 0)).prevPixelCenter
        depthThreshold := ⟨0.25,
          (naiveReprojection reflectionAgreeEnv (0, 0)).depthThreshold.y⟩
        discardEnlargedPixels := false
        reflectionReprojectionWeight := reflectionWeight reflectionAgreeEnv (0, 0) } := by
    unfold reflectionReprojection
    rw [if_neg hd0, if_pos hrand]
  have hdiv : ¬ 1 < vlength2 (prevReflectionCenterOf reflectionAgreeEnv (0, 0) -
      (naiveReprojection reflectionAgreeEnv (0, 0)).prevPixelCenter) := by
    rw [hrefl, hnaive, Vec2.sub2_def]
    have h00 : (⟨7 / 2 - 7 / 2, 9 / 2 - 9 / 2⟩ : Vec2) = ⟨0, 0⟩ := by
      simp only [Vec2.mk.injEq]
      norm_num
    rw [h00, vlength2]
    show ¬ 1 < Real.sqrt (0 * 0 + 0 * 0)
    rw [show (0 : ℝ) * 0 + 0 * 0 = 0 by norm_num, Real.sqrt_zero]
    norm_num
  have hnthr : (naiveReprojection reflectionAgreeEnv (0, 0)).depthThreshold.x = 0.01 := by
    show depthThresholdOf |dot3 (⟨0, 0, 1⟩ : Vec3) (⟨0, 0, 1⟩ : Vec3)| = 0.01
    have h1 : |dot3 (⟨0, 0, 1⟩ : Vec3) (⟨0, 0, 1⟩ : Vec3)| = 1 := by
      rw [dot3]
      norm_num
    rw [h1, depthThresholdOf, max_eq_left (by norm_num : (0.01 : ℝ) ≤ 1)]
    norm_num
  refine ⟨rfl, ?_, hdiv, ?_, ?_, ?_⟩
  · rw [hweight]
    norm_num
  · rw [hcomp, hres]
  · rw [hcomp, hres]
    show (naiveReprojection reflectionAgreeEnv (0, 0)).prevPixelCenter ≠ (⟨-1, -1⟩ : Vec2)
    rw [hnaive]
    intro h
    have hx := congrArg Vec2.x h
    norm_num at hx
  · rw [hcomp, hres]
    intro h
    have hx := congrArg (fun s : ReprojectionState => s.depthThreshold.x) h
    dsimp only at hx
    rw [hnthr] at hx
    norm_num at hx
